import Mathlib

/-!
Verification of the lets-vibe project-generation service against its
natural-language specification.  The JavaScript source is shallowly embedded:
each `async` function becomes a Lean function over explicit outcomes of the
external calls it awaits (`Except String _` models a promise that either
resolves or rejects), the in-process `Map`s become association lists, and the
JavaScript numbers involved in score arithmetic become `Rat`/`Int`/`Nat` with
the exact rounding and 32-bit wrapping the runtime performs.
-/

deriving instance DecidableEq for Except

/-! ## JavaScript string primitives -/

/-- Whitespace test used by `String.prototype.trim`: the ECMAScript
WhiteSpace set (TAB, VT, FF, ZWNBSP and the Unicode Space_Separator
category: SP, NBSP, U+1680, U+2000..U+200A, U+202F, U+205F, U+3000)
together with the LineTerminator set (LF, CR, U+2028, U+2029). -/
def jsIsWS (c : Char) : Bool :=
  c = ' ' || c = '\t' || c = '\n' || c = '\r' ||
  c.toNat = 11 || c.toNat = 12 ||
  c.toNat = 0xA0 || c.toNat = 0x1680 ||
  (0x2000 ≤ c.toNat && c.toNat ≤ 0x200A) ||
  c.toNat = 0x2028 || c.toNat = 0x2029 || c.toNat = 0x202F ||
  c.toNat = 0x205F || c.toNat = 0x3000 || c.toNat = 0xFEFF

/-- Model of `String.prototype.trim`: drop whitespace from both ends. -/
def jsTrim (s : String) : String :=
  String.mk (((s.toList.dropWhile jsIsWS).reverse.dropWhile jsIsWS).reverse)

/-- JavaScript `a || b` on strings: the empty string is falsy. -/
def jsOrStr (a b : String) : String := if a = "" then b else a

/-- Model of `List.startsWith` on character lists (prefix test). -/
def listStartsWith : List Char → List Char → Bool
  | _, [] => true
  | [], _ :: _ => false
  | c :: cs, p :: ps => decide (c = p) && listStartsWith cs ps

/-- Substring containment on character lists. -/
def listContains : List Char → List Char → Bool
  | [], pat => listStartsWith [] pat
  | c :: cs, pat => listStartsWith (c :: cs) pat || listContains cs pat

/-- Model of JavaScript `String.prototype.includes`. -/
def strIncludes (s pat : String) : Bool := listContains s.toList pat.toList

/-! ## Association-list model of the JavaScript `Map` -/

/-- `Map.prototype.get` on an insertion-ordered association list. -/
def mapGet {E : Type} : List (String × E) → String → Option E
  | [], _ => none
  | (k', v) :: t, k => if k = k' then some v else mapGet t k

/-- Replace every binding of key `k` in place. -/
def mapReplace {E : Type} : List (String × E) → String → E → List (String × E)
  | [], _, _ => []
  | (k', v') :: t, k, v =>
    if k' = k then (k, v) :: mapReplace t k v else (k', v') :: mapReplace t k v

/-- `Map.prototype.set`: overwrite in place if the key exists, else append
(insertion order preserved, exactly as the JavaScript `Map` behaves). -/
def mapSet {E : Type} (m : List (String × E)) (k : String) (v : E) :
    List (String × E) :=
  if (mapGet m k).isSome then mapReplace m k v else m ++ [(k, v)]

/-! ## Request body and pipeline data (src/app/api/generate-project/route.js) -/

/-- One entry of the request's `contributors` array. -/
structure Contributor where
  name : String
  expertise : List String
deriving DecidableEq

/-- Parsed JSON body of `POST /api/generate-project`; `none` models an
absent (`undefined`) field. -/
structure Body where
  project_idea : Option String
  special_instructions : Option String
  contributors : Option (List Contributor)
deriving DecidableEq

/-- The fields of the interpretation-stage output the route reads. -/
structure Interpretation where
  title : String
  objectives : List String
  scope_assumptions : List String
deriving DecidableEq

/-- Planning-stage output; `milestones` may be absent if the model returned
an unexpected shape (the route guards with `milestones.milestones || ...`). -/
structure MilestonesResp where
  milestones : Option (List String)
deriving DecidableEq

/-- Assignment-stage output, with the same absent-field guard. -/
structure AssignResp where
  assignments : Option (List String)
deriving DecidableEq

/-- Artifact-stage output; every field is read through `?.` in the route. -/
structure Artifacts where
  readme : Option String
  paper_draft : Option String
  api_documentation : Option String
  deployment_guide : Option String
  testing_strategy : Option String
  code_structure : Option String
deriving DecidableEq

/-- The `agent_insights` object of the enhanced route's 200 response. -/
structure AgentInsights where
  confidence_score : Nat
  web_search_performed : Bool
  technical_research_conducted : Bool
  market_analysis_performed : Bool
  enhancement_applied : Bool
deriving DecidableEq

/-- Payload of the enhanced route's 200 response. -/
structure SuccessPayload where
  title : String
  objectives : List String
  scope_assumptions : List String
  milestones : Sum (List String) MilestonesResp
  assignments : Sum (List String) AssignResp
  notion_url : Option String
  github_url : Option String
  paper_content : Option String
  readme_content : Option String
  api_documentation : Option String
  deployment_guide : Option String
  testing_strategy : Option String
  code_structure : Option String
  agent_insights : AgentInsights
  generation_type : String
  generation_timestamp : String
  agent_version : String
deriving DecidableEq

/-- An HTTP response of the route: status code, the `error` field (absent on
success) and the success payload (absent on failure). -/
structure HttpResponse where
  status : Nat
  error : Option String
  payload : Option SuccessPayload
deriving DecidableEq

/-- The route's blank-idea guard `!project_idea || !project_idea.trim()`. -/
def blankIdea : Option String → Bool
  | none => true
  | some s => s = "" || jsTrim s = ""

/-- The route's contributor guard `!contributors || contributors.length === 0`. -/
def noContributors : Option (List Contributor) → Bool
  | none => true
  | some l => l.length = 0

/-- Steps 1-4 of the route: the four awaited stage calls, each one an
external completion call whose outcome is passed in; the first rejection
aborts the chain (no stage-level catch exists in the source). -/
def runPipeline
    (iO : String → Option String → Except String Interpretation)
    (mO : Interpretation → Except String MilestonesResp)
    (aO : MilestonesResp → List Contributor → Option String → Except String AssignResp)
    (rO : Interpretation → MilestonesResp → AssignResp → String → Except String Artifacts)
    (idea : String) (instr : Option String) (contribs : List Contributor) :
    Except String (Interpretation × MilestonesResp × AssignResp × Artifacts) := do
  let itp ← iO idea instr
  let ms ← mO itp
  let asg ← aO ms contribs instr
  let art ← rO itp ms asg idea
  return (itp, ms, asg, art)

/-- The 200-response body the enhanced route builds (`Response.json({...})`),
as a function of the pipeline outputs and the two publish URLs. -/
def successPayload (itp : Interpretation) (ms : MilestonesResp)
    (asg : AssignResp) (art : Artifacts)
    (notionUrl githubUrl : Option String) (now : String) : SuccessPayload where
  title := itp.title
  objectives := itp.objectives
  scope_assumptions := itp.scope_assumptions
  milestones := match ms.milestones with
    | some l => Sum.inl l
    | none => Sum.inr ms
  assignments := match asg.assignments with
    | some l => Sum.inl l
    | none => Sum.inr asg
  notion_url := notionUrl
  github_url := githubUrl
  paper_content := art.paper_draft
  readme_content := art.readme
  api_documentation := art.api_documentation
  deployment_guide := art.deployment_guide
  testing_strategy := art.testing_strategy
  code_structure := art.code_structure
  agent_insights :=
    { confidence_score := 85
      web_search_performed := false
      technical_research_conducted := true
      market_analysis_performed := false
      enhancement_applied := true }
  generation_type := "enhanced"
  generation_timestamp := now
  agent_version := "1.0.0"

/-- The route's catch-all 500 response (`error.message || "Failed to ..."`). -/
def failureResponse (e : String) : HttpResponse :=
  { status := 500
    error := some (jsOrStr e ("Failed to generate project"))
    payload := none }

/-- `POST /api/generate-project` (enhanced route).  `bodyO` is the outcome of
`request.json()`; `iO`/`mO`/`aO`/`rO` are the outcomes of the four stage
calls; `nO`/`gO` are the outcomes of the Notion and GitHub publish calls,
each individually try/caught in the source so a rejection only nulls the
corresponding URL. -/
def POST (bodyO : Except String Body)
    (iO : String → Option String → Except String Interpretation)
    (mO : Interpretation → Except String MilestonesResp)
    (aO : MilestonesResp → List Contributor → Option String → Except String AssignResp)
    (rO : Interpretation → MilestonesResp → AssignResp → String → Except String Artifacts)
    (nO : Interpretation → MilestonesResp → AssignResp → Except String String)
    (gO : Interpretation → Artifacts → MilestonesResp → Except String String)
    (now : String) : HttpResponse :=
  match bodyO with
  | .error e => failureResponse e
  | .ok body =>
    if blankIdea body.project_idea then
      { status := 400, error := some ("Project idea is required"), payload := none }
    else if noContributors body.contributors then
      { status := 400, error := some ("At least one contributor is required"), payload := none }
    else
      match runPipeline iO mO aO rO (body.project_idea.getD "")
          body.special_instructions (body.contributors.getD []) with
      | .error e => failureResponse e
      | .ok (itp, ms, asg, art) =>
        let notionUrl := (nO itp ms asg).toOption
        let githubUrl := (gO itp art ms).toOption
        { status := 200
          error := none
          payload := some (successPayload itp ms asg art notionUrl githubUrl now) }

/-! ## Validation agent (src/app/api/agents/validation-agent.js) -/

/-- Per-criterion result returned by one completion call: its self-reported
0-100 `score` (absent when the model omitted it) and the rest of the JSON
payload kept opaque. -/
structure CriterionResult where
  score : Option Int
  payload : String
deriving DecidableEq

/-- The eight fixed validation criteria, in the source's order. -/
def validationCriteria : List String :=
  ["technical_feasibility", "market_viability", "resource_adequacy",
   "timeline_realism", "risk_assessment", "completeness_check",
   "quality_standards", "best_practices_compliance"]

/-- JavaScript `Math.round(sum / len)` for an integer sum and positive
length, computed exactly: `Math.round x = ⌊x + 1/2⌋`, and
`⌊sum/len + 1/2⌋ = ⌊(2·sum + len) / (2·len)⌋` (see `jsRoundMean_eq_floor`
below, which proves this encoding equal to the rounded rational mean). -/
def jsRoundMean (sum : Int) (len : Nat) : Int := (2 * sum + len) / (2 * len)

/-- `calculateOverallScore`: mean of `result.score || 0` over the results
mapping (insertion order), rounded; 0 for an empty mapping. -/
def calculateOverallScore (results : List (String × CriterionResult)) : Int :=
  let scores := results.map (fun r => (r.2.score).getD 0)
  if scores.length > 0 then jsRoundMean scores.sum scores.length else 0

/-- The `for (const criterion of this.validationCriteria)` loop of
`validateProject`: awaits each criterion's completion call in order; the
first rejection aborts the loop (no catch in the source). -/
def runCriteria (critO : String → Except String CriterionResult) :
    List String → Except String (List (String × CriterionResult))
  | [] => .ok []
  | c :: cs => do
    let r ← critO c
    let rest ← runCriteria critO cs
    return (c, r) :: rest

/-- The object `validateProject` resolves with. -/
structure ValidationResults where
  criteria : List String
  results : List (String × CriterionResult)
  overallScore : Int
  improvementNeeded : Bool
  suggestions : Option String
  report : String
deriving DecidableEq

/-- `ValidationAgent.validateProject`: run the eight criteria, average the
scores, flag `improvementNeeded` when the mean is below 75, generate
suggestions only in that case, then the report.  `critO` / `suggO` /
`reportO` are the outcomes of the awaited completion calls. -/
def validateProject (critO : String → Except String CriterionResult)
    (suggO : Except String String) (reportO : Except String String) :
    Except String ValidationResults := do
  let results ← runCriteria critO validationCriteria
  let overallScore := calculateOverallScore results
  let improvementNeeded : Bool := overallScore < 75
  let suggestions ←
    if improvementNeeded then do
      let s ← suggO
      pure (some s)
    else pure none
  let report ← reportO
  return { criteria := validationCriteria, results := results,
           overallScore := overallScore, improvementNeeded := improvementNeeded,
           suggestions := suggestions, report := report }

/-! ## Research agent (research-agent.js) -/

/-- Result of `researchTopic` for one topic (strategy call, conditional
sub-analyses and per-topic synthesis), kept opaque: only its rejection or
resolution matters to the claims. -/
structure TopicResult where
  topic : String
  findings : String
deriving DecidableEq

/-- The `for (const topic of researchTopics)` loop of `conductResearch`:
sequential awaits, first rejection aborts (no catch in the source). -/
def runTopics (topicO : String → Except String TopicResult) :
    List String → Except String (List (String × TopicResult))
  | [] => .ok []
  | t :: ts => do
    let r ← topicO t
    let rest ← runTopics topicO ts
    return (t, r) :: rest

/-- The object `conductResearch` resolves with. -/
structure ResearchOutput where
  individualResearch : List (String × TopicResult)
  synthesis : String
  topicsInvestigated : Nat
deriving DecidableEq

/-- `ResearchAgent.conductResearch`: research every topic in order, then one
synthesis completion call over the combined results. -/
def conductResearch (topicO : String → Except String TopicResult)
    (synthO : Except String String) (topics : List String) :
    Except String ResearchOutput := do
  let results ← runTopics topicO topics
  let synthesis ← synthO
  return { individualResearch := results, synthesis := synthesis,
           topicsInvestigated := topics.length }

/-! ## Web search agent (web-search-agent.js) -/

/-- One raw `organic` hit from the Serper response. -/
structure OrganicHit where
  title : String
  snippet : String
  link : String
  date : Option String
deriving DecidableEq

/-- The `searchInformation` object of the Serper response. -/
structure SerperInfo where
  totalResults : Nat
  formattedTotalResults : String
deriving DecidableEq

/-- A parsed Serper response body. -/
structure SerperResponse where
  organic : List OrganicHit
  searchInformation : SerperInfo
deriving DecidableEq

/-- A normalized hit (`title`, `snippet`, `url`, `date`). -/
structure SearchResult where
  title : String
  snippet : String
  url : String
  date : Option String
deriving DecidableEq

/-- The structured analysis the agent asks the completion client for. -/
structure SearchAnalysis where
  key_insights : List String
  trends : List String
  recommendations : List String
  technical_details : List String
  market_data : List String
  competitors : List String
  technologies : List String
  summary : String
deriving DecidableEq

/-- What one `search` call resolves with.  `error` is set only by the catch
path; `timestamp` is absent in the degraded-mode and catch records. -/
structure SearchRecord where
  query : String
  results : List SearchResult
  analysis : Option SearchAnalysis
  error : Option String
  timestamp : Option String
deriving DecidableEq

/-- `searchWithSerper`: with no `SERPER_API_KEY` it resolves immediately with
an empty result set; with a key it performs the provider fetch, whose
outcome (including the `!response.ok` throw and JSON parse) is `fetchO`. -/
def searchWithSerper (apiKey : Option String)
    (fetchO : Except String SerperResponse) : Except String SerperResponse :=
  match apiKey with
  | none =>
    .ok { organic := []
          searchInformation :=
            { totalResults := 0
              formattedTotalResults := "0 results (API key not configured)" } }
  | some _ => fetchO

/-- The fixed "unavailable" analysis returned when there are no organic
results (the degraded-mode contract of the spec). -/
def disabledAnalysis : SearchAnalysis where
  key_insights := ["Web search unavailable - API key not configured"]
  trends := ["Unable to analyze current trends without web access"]
  recommendations := ["Configure SERPER_API_KEY for enhanced research capabilities"]
  technical_details := ["Web search functionality disabled"]
  market_data := ["Market analysis unavailable without web search"]
  competitors := ["Competitor analysis unavailable without web search"]
  technologies := ["Technology research limited without web access"]
  summary := "Web search functionality is disabled. Configure SERPER_API_KEY to enable real-time research capabilities."

/-- The degraded-mode record `analyzeSearchResults` returns for a query with
no organic results. -/
def disabledRecord (q : String) : SearchRecord :=
  { query := q, results := [], analysis := some disabledAnalysis,
    error := none, timestamp := none }

/-- `analyzeSearchResults`: empty organic list short-circuits to the
degraded record without any completion call; otherwise the top five hits are
normalized and one completion call (`llmO`) produces the analysis. -/
def analyzeSearchResults (llmO : Except String SearchAnalysis) (now : String)
    (q : String) (sr : SerperResponse) : Except String SearchRecord :=
  if sr.organic.length = 0 then
    .ok (disabledRecord q)
  else do
    let relevantResults := (sr.organic.take 5).map fun r =>
      ({ title := r.title, snippet := r.snippet, url := r.link,
         date := r.date } : SearchResult)
    let analysis ← llmO
    return { query := q, results := relevantResults, analysis := some analysis,
             error := none, timestamp := some now }

/-- The per-process environment one `WebSearchAgent` runs in: the optional
provider credential and, per query, the provider-fetch and analysis-call
outcomes (`now` stands for `new Date().toISOString()`). -/
structure SearchEnv where
  apiKey : Option String
  fetchO : String → Except String SerperResponse
  llmO : String → Except String SearchAnalysis
  now : String

/-- The body of `search`'s `try` block: provider fetch then analysis. -/
def underlyingSearch (env : SearchEnv) (q : String) : Except String SearchRecord := do
  let sr ← searchWithSerper env.apiKey (env.fetchO q)
  analyzeSearchResults (env.llmO q) env.now q sr

/-- The agent's in-process cache (a JavaScript `Map`). -/
abbrev SearchCache := List (String × SearchRecord)

/-- The cache key: `` `${query}-${JSON.stringify(options)}` `` with the
options object already serialized. -/
def cacheKey (q opts : String) : String := q ++ "-" ++ opts

/-- The `{ query, results: [], analysis: null, error }` record `search`'s
catch path converts a rejection into. -/
def errRecord (q e : String) : SearchRecord :=
  { query := q, results := [], analysis := none, error := some e,
    timestamp := none }

/-- `WebSearchAgent.search`: cache hit returns the cached record; on a miss
the underlying calls run (the third component counts them: 0 on a hit, 1 on
a miss), a resolved record is cached, and a rejection is caught and turned
into an error record that is NOT cached. -/
def search (env : SearchEnv) (q opts : String) (cache : SearchCache) :
    SearchRecord × SearchCache × Nat :=
  match mapGet cache (cacheKey q opts) with
  | some r => (r, cache, 0)
  | none =>
    match underlyingSearch env q with
    | .ok r => (r, mapSet cache (cacheKey q opts) r, 1)
    | .error e => (errRecord q e, cache, 1)

/-- `WebSearchAgent.clearCache`. -/
def clearCache : SearchCache := []

/-- The serialization of the default (empty) options object. -/
def emptyOptions : String := "\x7b\x7d"

/-- The `queries.map(query => this.search(query))` fan-out of
`searchMultipleQueries`, threading the shared cache. -/
def searchMany (env : SearchEnv) :
    List String → SearchCache → List SearchRecord × SearchCache
  | [], cache => ([], cache)
  | q :: qs, cache =>
    let (r, c1, _) := search env q emptyOptions cache
    let (rs, c2) := searchMany env qs c1
    (r :: rs, c2)

/-- What `searchMultipleQueries` resolves with. -/
structure BatchResult where
  individualResults : List SearchRecord
  synthesis : String
deriving DecidableEq

/-- `WebSearchAgent.searchMultipleQueries`: run all queries, then one
synthesis completion call (`synthO`) over the full result set; a rejected
synthesis rejects the batch. -/
def searchMultipleQueries (env : SearchEnv) (synthO : Except String String)
    (queries : List String) (cache : SearchCache) :
    Except String BatchResult × SearchCache :=
  let (rs, c1) := searchMany env queries cache
  match synthO with
  | .ok s => (.ok { individualResults := rs, synthesis := s }, c1)
  | .error e => (.error e, c1)

/-- A cache state is coherent with the environment when every entry was
produced by a successful underlying search for its own query (the invariant
every cache reachable through `search` with default options satisfies, since
only the `try` branch writes to the cache). -/
def coherentCache (env : SearchEnv) (cache : SearchCache) : Prop :=
  ∀ k v, mapGet cache k = some v →
    ∃ q, k = cacheKey q emptyOptions ∧ underlyingSearch env q = .ok v

/-! ## Knowledge base (knowledge-base.js) -/

/-- ToInt32: wrap an integer into the signed 32-bit range, as the `&`
operator does in JavaScript. -/
def toInt32 (n : Int) : Int := (n + 2 ^ 31) % 2 ^ 32 - 2 ^ 31

/-- One step of `hashString`'s loop:
`hash = ((hash << 5) - hash) + char; hash = hash & hash`. -/
def hashStep (h : Int) (c : Nat) : Int := toInt32 (toInt32 (h * 32) - h + (c : Int))

/-- Digit characters of `Number.prototype.toString(36)`. -/
def base36Char (n : Nat) : Char :=
  if n < 10 then Char.ofNat (48 + n) else Char.ofNat (87 + n)

/-- Fuel-driven base-36 conversion (the fuel `n + 1` always suffices). -/
def natToBase36Go (fuel n : Nat) (acc : List Char) : List Char :=
  match fuel with
  | 0 => acc
  | fuel' + 1 =>
    if n < 36 then base36Char n :: acc
    else natToBase36Go fuel' (n / 36) (base36Char (n % 36) :: acc)

/-- `Math.abs(hash).toString(36)`'s base-36 rendering of a natural. -/
def natToBase36 (n : Nat) : String := String.mk (natToBase36Go (n + 1) n [])

/-- `JSON.stringify` escaping for one character of a string payload. -/
def jsonEscapeChar (c : Char) : String :=
  if c = '"' then "\\\"" else if c = '\\' then "\\\\"
  else if c = '\n' then "\\n" else if c = '\r' then "\\r"
  else if c = '\t' then "\\t" else String.mk [c]

/-- `JSON.stringify` of a string payload (the learning items the knowledge
base stores are free-text strings). -/
def jsonStringify (s : String) : String :=
  "\"" ++ String.join (s.toList.map jsonEscapeChar) ++ "\""

/-- `KnowledgeBase.hashString`: the 32-bit rolling hash, made non-negative
and rendered in base 36. -/
def hashString (s : String) : String :=
  natToBase36 ((s.toList.foldl (fun h c => hashStep h c.toNat) 0).natAbs)

/-- `generatePatternKey`. -/
def generatePatternKey (p : String) : String :=
  "pattern_" ++ hashString (jsonStringify p)

/-- `generateInsightKey`. -/
def generateInsightKey (i : String) : String :=
  "insight_" ++ hashString (jsonStringify i)

/-- `generateBestPracticeKey`. -/
def generateBestPracticeKey (p : String) : String :=
  "practice_" ++ hashString (jsonStringify p)

/-- `generateTechnologyKey`. -/
def generateTechnologyKey (l : String) : String :=
  "tech_" ++ hashString (jsonStringify l)

/-- A stored pattern.  `occurrences` is the strength counter incremented by
`storePattern`; `confidence`, `evidence` and `lastValidated` appear only
once `updatePatternStrengths` touches the entry (`none`/`[]` model the
absent JavaScript fields). -/
structure PatternEntry where
  pattern : String
  type : String
  occurrences : Nat
  projects : List String
  lastSeen : Option String
  confidence : Option Rat
  evidence : List String
  lastValidated : Option String
deriving DecidableEq

/-- A stored insight (`confidence` is its counter, initialized to 1 and
incremented on every store). -/
structure InsightEntry where
  insight : String
  category : String
  confidence : Nat
  sources : List String
  lastUpdated : Option String
deriving DecidableEq

/-- A stored best practice (`effectiveness` is its counter). -/
structure PracticeEntry where
  practice : String
  effectiveness : Nat
  contexts : List String
  lastValidated : Option String
deriving DecidableEq

/-- A stored technology learning (`reliability` is its counter). -/
structure TechEntry where
  learning : String
  reliability : Nat
  contexts : List String
  lastUpdated : Option String
deriving DecidableEq

/-- `KnowledgeBase.storePattern` on the `patterns` map. -/
def storePattern (m : List (String × PatternEntry)) (ty p now : String) :
    List (String × PatternEntry) :=
  let key := generatePatternKey p
  let existing := (mapGet m key).getD
    { pattern := p, type := ty, occurrences := 0, projects := [],
      lastSeen := none, confidence := none, evidence := [], lastValidated := none }
  mapSet m key
    { existing with occurrences := existing.occurrences + 1, lastSeen := some now }

/-- `KnowledgeBase.storeInsight` on the `insights` map. -/
def storeInsight (m : List (String × InsightEntry)) (cat i now : String) :
    List (String × InsightEntry) :=
  let key := generateInsightKey i
  let existing := (mapGet m key).getD
    { insight := i, category := cat, confidence := 1, sources := [],
      lastUpdated := none }
  mapSet m key
    { existing with confidence := existing.confidence + 1, lastUpdated := some now }

/-- `KnowledgeBase.storeBestPractice` on the `bestPractices` map. -/
def storeBestPractice (m : List (String × PracticeEntry)) (p now : String) :
    List (String × PracticeEntry) :=
  let key := generateBestPracticeKey p
  let existing := (mapGet m key).getD
    { practice := p, effectiveness := 1, contexts := [], lastValidated := none }
  mapSet m key
    { existing with
      effectiveness := existing.effectiveness + 1
      lastValidated := some now }

/-- `KnowledgeBase.storeTechnologyLearning` on the `technologies` map. -/
def storeTechnologyLearning (m : List (String × TechEntry)) (l now : String) :
    List (String × TechEntry) :=
  let key := generateTechnologyKey l
  let existing := (mapGet m key).getD
    { learning := l, reliability := 1, contexts := [], lastUpdated := none }
  mapSet m key
    { existing with
      reliability := existing.reliability + 1
      lastUpdated := some now }

/-- One entry of `analysis.pattern_strength_updates`. -/
structure StrengthUpdate where
  pattern : String
  strength_change : String
  evidence : String
deriving DecidableEq

/-- One iteration of `updatePatternStrengths`'s loop: missing keys are
skipped; `increased` multiplies `confidence || 1` by 1.1, `decreased` by
0.9, anything else leaves it; evidence and `lastValidated` are updated. -/
def applyStrengthUpdate (m : List (String × PatternEntry)) (u : StrengthUpdate)
    (now : String) : List (String × PatternEntry) :=
  let key := generatePatternKey u.pattern
  match mapGet m key with
  | none => m
  | some ex =>
    let ex1 :=
      if u.strength_change = "increased" then
        { ex with confidence := some ((ex.confidence.getD 1) * (11 / 10 : Rat)) }
      else if u.strength_change = "decreased" then
        { ex with confidence := some ((ex.confidence.getD 1) * (9 / 10 : Rat)) }
      else ex
    mapSet m key
      { ex1 with lastValidated := some now, evidence := ex1.evidence ++ [u.evidence] }

/-- `KnowledgeBase.updatePatternStrengths` over the whole update list. -/
def updatePatternStrengths (m : List (String × PatternEntry))
    (updates : List StrengthUpdate) (now : String) :
    List (String × PatternEntry) :=
  updates.foldl (fun m u => applyStrengthUpdate m u now) m

/-- The `this.knowledge` record (the `failures` and `markets` maps exist in
the source but are never written). -/
structure Knowledge where
  patterns : List (String × PatternEntry)
  insights : List (String × InsightEntry)
  bestPractices : List (String × PracticeEntry)
  failures : List (String × String)
  technologies : List (String × TechEntry)
  markets : List (String × String)
deriving DecidableEq

/-- The maps a fresh `KnowledgeBase` starts with (also what `clearKnowledge`
resets to). -/
def emptyKnowledge : Knowledge :=
  { patterns := [], insights := [], bestPractices := [], failures := [],
    technologies := [], markets := [] }

/-- `KnowledgeBase.importKnowledge`: each map present in the imported data
wholesale replaces the current one. -/
def importKnowledge (k : Knowledge)
    (ps : Option (List (String × PatternEntry)))
    (ins : Option (List (String × InsightEntry)))
    (bps : Option (List (String × PracticeEntry)))
    (tech : Option (List (String × TechEntry))) : Knowledge :=
  { k with
    patterns := ps.getD k.patterns
    insights := ins.getD k.insights
    bestPractices := bps.getD k.bestPractices
    technologies := tech.getD k.technologies }

/-! ## Orchestrator (orchestrator.js) -/

/-- `AgentOrchestrator.calculateConfidenceScore`: count the execution-log
lines containing each keyword, combine with the fixed weights, cap at 100. -/
def calculateConfidenceScore (executionLog : List String) : Nat :=
  let researchDepth := (executionLog.filter (fun l => strIncludes l ("research"))).length
  let validationChecks := (executionLog.filter (fun l => strIncludes l ("validation"))).length
  let enhancementSteps := (executionLog.filter (fun l => strIncludes l ("enhancement"))).length
  min 100 (researchDepth * 20 + validationChecks * 25 + enhancementSteps * 15)

/-! ## Concrete fixtures used by the witnesses -/

/-- A request body with a blank `project_idea` (the spec's 400 example). -/
def blankBody : Body :=
  { project_idea := some "", special_instructions := none,
    contributors := some [{ name := "A", expertise := [] }] }

/-- A request body whose `project_idea` is a single no-break space, blank
under ECMAScript `trim` though not under ASCII-only trimming. -/
def nbspBody : Body :=
  { project_idea := some "\u00A0", special_instructions := none,
    contributors := some [{ name := "A", expertise := [] }] }

/-- A valid request body. -/
def validBody : Body :=
  { project_idea := some "Build a todo app", special_instructions := none,
    contributors := some [{ name := "A", expertise := ["ml"] }] }

/-- A concrete interpretation-stage output. -/
def itpEx : Interpretation :=
  { title := "Todo App", objectives := ["o1"], scope_assumptions := ["s1"] }

/-- A concrete planning-stage output. -/
def msEx : MilestonesResp := { milestones := some ["m1"] }

/-- A concrete assignment-stage output. -/
def asgEx : AssignResp := { assignments := some ["a1"] }

/-- A concrete artifact-stage output. -/
def artEx : Artifacts :=
  { readme := some "r", paper_draft := some "p", api_documentation := some "d",
    deployment_guide := some "g", testing_strategy := some "t",
    code_structure := some "c" }

/-- Interpretation stage rejecting (completion credential missing). -/
def errI : String → Option String → Except String Interpretation :=
  fun _ _ => .error "OPENAI_API_KEY not configured"

/-- Planning stage rejecting. -/
def errM : Interpretation → Except String MilestonesResp :=
  fun _ => .error "OPENAI_API_KEY not configured"

/-- Assignment stage rejecting. -/
def errA : MilestonesResp → List Contributor → Option String → Except String AssignResp :=
  fun _ _ _ => .error "OPENAI_API_KEY not configured"

/-- Artifact stage rejecting. -/
def errR : Interpretation → MilestonesResp → AssignResp → String → Except String Artifacts :=
  fun _ _ _ _ => .error "OPENAI_API_KEY not configured"

/-- Notion publish rejecting. -/
def errN : Interpretation → MilestonesResp → AssignResp → Except String String :=
  fun _ _ _ => .error "Notion integration failed"

/-- GitHub publish rejecting. -/
def errG : Interpretation → Artifacts → MilestonesResp → Except String String :=
  fun _ _ _ => .error "GitHub integration failed"

/-- Interpretation stage resolving. -/
def okI : String → Option String → Except String Interpretation := fun _ _ => .ok itpEx

/-- Planning stage resolving. -/
def okM : Interpretation → Except String MilestonesResp := fun _ => .ok msEx

/-- Assignment stage resolving. -/
def okA : MilestonesResp → List Contributor → Option String → Except String AssignResp :=
  fun _ _ _ => .ok asgEx

/-- Artifact stage resolving. -/
def okR : Interpretation → MilestonesResp → AssignResp → String → Except String Artifacts :=
  fun _ _ _ _ => .ok artEx

/-- Notion publish resolving. -/
def okN : Interpretation → MilestonesResp → AssignResp → Except String String :=
  fun _ _ _ => .ok "notion-url"

/-- GitHub publish resolving. -/
def okG : Interpretation → Artifacts → MilestonesResp → Except String String :=
  fun _ _ _ => .ok "github-url"

/-- Criterion oracle in which every criterion self-reports a score of 80. -/
def critO80 : String → Except String CriterionResult :=
  fun _ => .ok { score := some 80, payload := "" }

/-- Criterion oracle in which every criterion self-reports a score of 0. -/
def critO0 : String → Except String CriterionResult :=
  fun _ => .ok { score := some 0, payload := "" }

/-- Criterion oracle whose `risk_assessment` completion call rejects. -/
def critOfail : String → Except String CriterionResult :=
  fun c => if c = "risk_assessment" then .error "criterion boom"
           else .ok { score := some 80, payload := "" }

/-- Topic oracle whose `scalability` research rejects. -/
def topicOfail : String → Except String TopicResult :=
  fun t => if t = "scalability" then .error "topic boom"
           else .ok { topic := t, findings := "f" }

/-- A search environment with no `SERPER_API_KEY` (both underlying calls
would reject if they were ever made). -/
def noKeyEnv : SearchEnv :=
  { apiKey := none, fetchO := fun _ => .error "fetch", llmO := fun _ => .error "llm",
    now := "t0" }

/-- A concrete organic hit. -/
def hitEx : OrganicHit := { title := "T", snippet := "S", link := "L", date := none }

/-- A concrete Serper response with one hit. -/
def serperOkResp : SerperResponse :=
  { organic := [hitEx],
    searchInformation := { totalResults := 1, formattedTotalResults := "1" } }

/-- A concrete analysis returned by the completion call. -/
def analysisEx : SearchAnalysis :=
  { key_insights := [], trends := [], recommendations := [],
    technical_details := [], market_data := [], competitors := [],
    technologies := [], summary := "ok" }

/-- A search environment in which only the query `"b"`'s provider fetch
rejects. -/
def batchEnv : SearchEnv :=
  { apiKey := some "k",
    fetchO := fun q => if q = "b" then .error "network down" else .ok serperOkResp,
    llmO := fun _ => .ok analysisEx, now := "t0" }

/-- The record `search` resolves with for query `"a"` under `batchEnv`. -/
def recAEx : SearchRecord :=
  { query := "a",
    results := [{ title := "T", snippet := "S", url := "L", date := none }],
    analysis := some analysisEx, error := none, timestamp := some "t0" }

/-- The record `search` resolves with for query `"c"` under `batchEnv`. -/
def recCEx : SearchRecord :=
  { query := "c",
    results := [{ title := "T", snippet := "S", url := "L", date := none }],
    analysis := some analysisEx, error := none, timestamp := some "t0" }

/-- A search environment in which every provider fetch rejects. -/
def failEnv : SearchEnv :=
  { apiKey := some "k", fetchO := fun _ => .error "network down",
    llmO := fun _ => .error "no llm", now := "t0" }

/-- The patterns map after storing the same success pattern twice. -/
def patternsTwice : List (String × PatternEntry) :=
  storePattern (storePattern [] "success" "reuse components" "t1")
    "success" "reuse components" "t2"

/-- The entry `patternsTwice` holds (occurrences 2). -/
def entryTwice : PatternEntry :=
  { pattern := "reuse components", type := "success", occurrences := 2,
    projects := [], lastSeen := some "t2", confidence := none, evidence := [],
    lastValidated := none }

/-- A knowledge record whose patterns map is `patternsTwice`. -/
def knowledgeTwice : Knowledge :=
  { emptyKnowledge with patterns := patternsTwice }

/-- An imported patterns map carrying the same key with a lower counter. -/
def importedLow : List (String × PatternEntry) :=
  [(generatePatternKey "reuse components",
    { pattern := "reuse components", type := "success", occurrences := 1,
      projects := [], lastSeen := none, confidence := none, evidence := [],
      lastValidated := none })]

/-- A `decreased` pattern-strength update for the stored pattern. -/
def decUpdate : StrengthUpdate :=
  { pattern := "reuse components", strength_change := "decreased", evidence := "ev" }

/-- An `increased` pattern-strength update for the stored pattern. -/
def incUpdate : StrengthUpdate :=
  { pattern := "reuse components", strength_change := "increased", evidence := "ev" }

/-! ## Helper lemmas about the map model -/

theorem mapGet_replace_self {E : Type} (m : List (String × E)) (k : String)
    (v : E) (h : (mapGet m k).isSome) :
    mapGet (mapReplace m k v) k = some v := by
  induction m with
  | nil => simp [mapGet] at h
  | cons a t ih =>
    obtain ⟨a1, a2⟩ := a
    by_cases hk : a1 = k
    · subst hk
      simp [mapReplace, mapGet]
    · have hne : ¬(k = a1) := fun hh => hk hh.symm
      simp only [mapGet, hne, if_false] at h
      simpa [mapReplace, mapGet, hk, hne] using ih h

theorem mapGet_replace_ne {E : Type} (m : List (String × E)) (k k' : String)
    (v : E) (h : k' ≠ k) :
    mapGet (mapReplace m k v) k' = mapGet m k' := by
  induction m with
  | nil => simp [mapReplace]
  | cons a t ih =>
    obtain ⟨a1, a2⟩ := a
    by_cases hk : a1 = k
    · subst hk
      have hne : ¬(k' = a1) := h
      simp [mapReplace, mapGet, hne, ih]
    · by_cases hk' : k' = a1
      · simp [mapReplace, mapGet, hk, hk']
      · simp [mapReplace, mapGet, hk, hk', ih]

theorem mapGet_append_of_none {E : Type} (m l : List (String × E)) (k : String)
    (h : mapGet m k = none) : mapGet (m ++ l) k = mapGet l k := by
  induction m with
  | nil => simp
  | cons a t ih =>
    obtain ⟨a1, a2⟩ := a
    by_cases hk : k = a1
    · simp [mapGet, hk] at h
    · simp only [mapGet, hk, if_false] at h
      simpa [mapGet, hk] using ih h

theorem mapGet_append_of_some {E : Type} (m l : List (String × E)) (k : String)
    (v : E) (h : mapGet m k = some v) : mapGet (m ++ l) k = some v := by
  induction m with
  | nil => simp [mapGet] at h
  | cons a t ih =>
    obtain ⟨a1, a2⟩ := a
    by_cases hk : k = a1
    · simp only [mapGet, hk, if_true] at h
      simp [mapGet, hk, h]
    · simp only [mapGet, hk, if_false] at h
      simpa [mapGet, hk] using ih h

theorem mapGet_mapSet_self {E : Type} (m : List (String × E)) (k : String)
    (v : E) : mapGet (mapSet m k v) k = some v := by
  unfold mapSet
  by_cases h : (mapGet m k).isSome
  · simpa [h] using mapGet_replace_self m k v h
  · have hn : mapGet m k = none := by
      cases hm : mapGet m k with
      | none => rfl
      | some w => simp [hm] at h
    simp [h, mapGet_append_of_none m _ k hn, mapGet]

theorem mapGet_mapSet_ne {E : Type} (m : List (String × E)) (k k' : String)
    (v : E) (h : k' ≠ k) : mapGet (mapSet m k v) k' = mapGet m k' := by
  unfold mapSet
  by_cases hs : (mapGet m k).isSome
  · simpa [hs] using mapGet_replace_ne m k k' v h
  · cases hm : mapGet m k' with
    | none =>
      simp [hs, mapGet_append_of_none m _ k' hm, mapGet, h]
    | some w =>
      simp [hs, mapGet_append_of_some m _ k' w hm, hm]

theorem length_mapReplace {E : Type} (m : List (String × E)) (k : String)
    (v : E) : (mapReplace m k v).length = m.length := by
  induction m with
  | nil => rfl
  | cons a t ih =>
    obtain ⟨a1, a2⟩ := a
    by_cases hk : a1 = k <;> simp [mapReplace, hk, ih]

theorem length_mapSet {E : Type} (m : List (String × E)) (k : String) (v : E) :
    (mapSet m k v).length =
    if (mapGet m k).isSome then m.length else m.length + 1 := by
  unfold mapSet
  by_cases h : (mapGet m k).isSome <;> simp [h, length_mapReplace]

/-! ## Helper lemmas about the fan-out loops -/

theorem runCriteria_error (critO : String → Except String CriterionResult)
    (c : String) (e : String) :
    ∀ cs : List String, c ∈ cs → critO c = .error e →
    ∃ e', runCriteria critO cs = .error e' := by
  intro cs
  induction cs with
  | nil => intro h; exact absurd h (List.not_mem_nil c)
  | cons x xs ih =>
    intro hmem hc
    cases hx : critO x with
    | error e'' => exact ⟨e'', by rw [runCriteria, hx]; rfl⟩
    | ok r =>
      rcases List.mem_cons.mp hmem with hcx | hcs
      · subst hcx
        rw [hx] at hc
        exact absurd hc (by simp)
      · obtain ⟨e', he'⟩ := ih hcs hc
        exact ⟨e', by rw [runCriteria, hx, he']; rfl⟩

theorem runCriteria_ok (critO : String → Except String CriterionResult)
    (rs : String → CriterionResult) :
    ∀ cs : List String, (∀ c ∈ cs, critO c = .ok (rs c)) →
    runCriteria critO cs = .ok (cs.map fun c => (c, rs c)) := by
  intro cs
  induction cs with
  | nil => intro _; rfl
  | cons x xs ih =>
    intro h
    have hx : critO x = .ok (rs x) := h x (List.mem_cons_self x xs)
    have hxs := ih (fun c hc => h c (List.mem_cons_of_mem x hc))
    rw [List.map_cons, runCriteria, hx, hxs]
    rfl

theorem runTopics_error (topicO : String → Except String TopicResult)
    (t : String) (e : String) :
    ∀ ts : List String, t ∈ ts → topicO t = .error e →
    ∃ e', runTopics topicO ts = .error e' := by
  intro ts
  induction ts with
  | nil => intro h; exact absurd h (List.not_mem_nil t)
  | cons x xs ih =>
    intro hmem ht
    cases hx : topicO x with
    | error e'' => exact ⟨e'', by rw [runTopics, hx]; rfl⟩
    | ok r =>
      rcases List.mem_cons.mp hmem with htx | hts
      · subst htx
        rw [hx] at ht
        exact absurd ht (by simp)
      · obtain ⟨e', he'⟩ := ih hts ht
        exact ⟨e', by rw [runTopics, hx, he']; rfl⟩

/-! ## C1 -/

/-- C1: the `POST /api/generate-project` handler returns HTTP 400 with a
non-null `error` field whenever `project_idea` is absent/empty/whitespace-only
or the contributors list is absent or empty — and that 400 response is a
constant, independent of every stage/publish outcome, so it is produced
before any completion call; for every other parsed request it returns
HTTP 200 (with the aggregated payload and no error) or HTTP 500 with a
non-null `error` field. -/
theorem c1_request_validation (body : Body)
    (iO : String → Option String → Except String Interpretation)
    (mO : Interpretation → Except String MilestonesResp)
    (aO : MilestonesResp → List Contributor → Option String → Except String AssignResp)
    (rO : Interpretation → MilestonesResp → AssignResp → String → Except String Artifacts)
    (nO : Interpretation → MilestonesResp → AssignResp → Except String String)
    (gO : Interpretation → Artifacts → MilestonesResp → Except String String)
    (now : String) :
    (blankIdea body.project_idea = true →
      POST (.ok body) iO mO aO rO nO gO now =
        { status := 400, error := some ("Project idea is required"), payload := none }) ∧
    (blankIdea body.project_idea = false → noContributors body.contributors = true →
      POST (.ok body) iO mO aO rO nO gO now =
        { status := 400, error := some ("At least one contributor is required"),
          payload := none }) ∧
    (blankIdea body.project_idea = false → noContributors body.contributors = false →
      ((POST (.ok body) iO mO aO rO nO gO now).status = 200 ∧
        (POST (.ok body) iO mO aO rO nO gO now).error = none ∧
        (POST (.ok body) iO mO aO rO nO gO now).payload.isSome) ∨
      ((POST (.ok body) iO mO aO rO nO gO now).status = 500 ∧
        (POST (.ok body) iO mO aO rO nO gO now).error ≠ none)) := by
  refine ⟨fun hb => ?_, fun hb hc => ?_, fun hb hc => ?_⟩
  · simp [POST, hb]
  · simp [POST, hb, hc]
  · cases hp : runPipeline iO mO aO rO (body.project_idea.getD "")
        body.special_instructions (body.contributors.getD []) with
    | error e =>
      right
      simp [POST, hb, hc, hp, failureResponse, jsOrStr]
    | ok out =>
      left
      obtain ⟨itp, ms, asg, art⟩ := out
      simp [POST, hb, hc, hp]

/-- Witness for C1 at concrete inputs: the spec's own example request with a
blank idea yields the 400, as does an idea consisting of a single no-break
space (whitespace-only under ECMAScript `trim`) — both with every stage
rejecting, showing the check precedes the completion calls — and a valid
request whose stage calls all reject yields the 500-with-error shape. -/
theorem c1_request_validation_witness :
    POST (.ok blankBody) errI errM errA errR errN errG "t" =
      { status := 400, error := some ("Project idea is required"), payload := none } ∧
    POST (.ok nbspBody) errI errM errA errR errN errG "t" =
      { status := 400, error := some ("Project idea is required"), payload := none } ∧
    (((POST (.ok validBody) errI errM errA errR errN errG "t").status = 200 ∧
      (POST (.ok validBody) errI errM errA errR errN errG "t").error = none ∧
      (POST (.ok validBody) errI errM errA errR errN errG "t").payload.isSome) ∨
     ((POST (.ok validBody) errI errM errA errR errN errG "t").status = 500 ∧
      (POST (.ok validBody) errI errM errA errR errN errG "t").error ≠ none)) := by
  refine ⟨?_, ?_, ?_⟩
  · exact (c1_request_validation blankBody errI errM errA errR errN errG "t").1
      (by decide)
  · exact (c1_request_validation nbspBody errI errM errA errR errN errG "t").1
      (by decide)
  · exact (c1_request_validation validBody errI errM errA errR errN errG "t").2.2
      (by decide) (by decide)

/-! ## C10 -/

/-- C10: every 200 response of the enhanced route carries the fixed
`agent_insights` constant — confidence_score 85, web_search_performed false,
technical_research_conducted true, market_analysis_performed false,
enhancement_applied true — whatever the request body, stage outcomes and
publish outcomes were; the score is a literal in the response builder, not
computed from any log or research activity. -/
theorem c10_agent_insights_constant
    (bodyO : Except String Body)
    (iO : String → Option String → Except String Interpretation)
    (mO : Interpretation → Except String MilestonesResp)
    (aO : MilestonesResp → List Contributor → Option String → Except String AssignResp)
    (rO : Interpretation → MilestonesResp → AssignResp → String → Except String Artifacts)
    (nO : Interpretation → MilestonesResp → AssignResp → Except String String)
    (gO : Interpretation → Artifacts → MilestonesResp → Except String String)
    (now : String) (r : HttpResponse)
    (hr : POST bodyO iO mO aO rO nO gO now = r) (h200 : r.status = 200) :
    ∃ p, r.payload = some p ∧ p.agent_insights =
      { confidence_score := 85, web_search_performed := false,
        technical_research_conducted := true, market_analysis_performed := false,
        enhancement_applied := true } := by
  subst hr
  unfold POST at h200 ⊢
  cases bodyO with
  | error e => simp [failureResponse] at h200
  | ok body =>
    cases hb : blankIdea body.project_idea with
    | true => simp [hb] at h200
    | false =>
      cases hc : noContributors body.contributors with
      | true => simp [hb, hc] at h200
      | false =>
        cases hp : runPipeline iO mO aO rO (body.project_idea.getD "")
            body.special_instructions (body.contributors.getD []) with
        | error e => simp [hb, hc, hp, failureResponse] at h200
        | ok out =>
          obtain ⟨itp, ms, asg, art⟩ := out
          simp only [hb, hc, hp]
          exact ⟨_, rfl, rfl⟩

/-- Witness for C10: a concrete successful run carries the constant. -/
theorem c10_agent_insights_constant_witness :
    ∃ p, (POST (.ok validBody) okI okM okA okR okN okG "t").payload = some p ∧
      p.agent_insights =
      { confidence_score := 85, web_search_performed := false,
        technical_research_conducted := true, market_analysis_performed := false,
        enhancement_applied := true } :=
  c10_agent_insights_constant (.ok validBody) okI okM okA okR okN okG "t" _
    rfl (by decide)

/-! ## C5 -/

/-- C5: each publish step is individually caught: if the Notion call rejects,
the handler still returns 200 with `notion_url` null while the GitHub step is
still attempted (its URL is exactly its own outcome), and symmetrically for a
GitHub rejection; in both cases the payload is the `successPayload` of the
very pipeline outputs, so the generated plan and artifacts are unchanged by
the publish failure. -/
theorem c5_publish_steps_isolated (body : Body)
    (iO : String → Option String → Except String Interpretation)
    (mO : Interpretation → Except String MilestonesResp)
    (aO : MilestonesResp → List Contributor → Option String → Except String AssignResp)
    (rO : Interpretation → MilestonesResp → AssignResp → String → Except String Artifacts)
    (nO : Interpretation → MilestonesResp → AssignResp → Except String String)
    (gO : Interpretation → Artifacts → MilestonesResp → Except String String)
    (now eN eG : String)
    (hb : blankIdea body.project_idea = false)
    (hc : noContributors body.contributors = false)
    (itp : Interpretation) (ms : MilestonesResp) (asg : AssignResp) (art : Artifacts)
    (hp : runPipeline iO mO aO rO (body.project_idea.getD "")
      body.special_instructions (body.contributors.getD []) = .ok (itp, ms, asg, art)) :
    POST (.ok body) iO mO aO rO (fun _ _ _ => .error eN) gO now =
      { status := 200, error := none,
        payload := some (successPayload itp ms asg art none
          (gO itp art ms).toOption now) } ∧
    POST (.ok body) iO mO aO rO nO (fun _ _ _ => .error eG) now =
      { status := 200, error := none,
        payload := some (successPayload itp ms asg art
          (nO itp ms asg).toOption none now) } := by
  constructor <;> simp [POST, hb, hc, hp, Except.toOption]

/-- Witness for C5: a concrete run in which the Notion (resp. GitHub) call
rejects still yields 200, with the other URL present and the plan intact. -/
theorem c5_publish_steps_isolated_witness :
    POST (.ok validBody) okI okM okA okR errN okG "t" =
      { status := 200, error := none,
        payload := some (successPayload itpEx msEx asgEx artEx none
          (some "github-url") "t") } ∧
    POST (.ok validBody) okI okM okA okR okN errG "t" =
      { status := 200, error := none,
        payload := some (successPayload itpEx msEx asgEx artEx
          (some "notion-url") none "t") } := by
  have h := c5_publish_steps_isolated validBody okI okM okA okR okN okG "t"
    "Notion integration failed" "GitHub integration failed"
    (by decide) (by decide) itpEx msEx asgEx artEx rfl
  exact ⟨h.1, h.2⟩

/-! ## Reduction lemmas for the Except monad -/

theorem except_bind_ok {α β : Type} (a : α) (f : α → Except String β) :
    (Except.ok a >>= f : Except String β) = f a := rfl

theorem except_bind_error {α β : Type} (e : String) (f : α → Except String β) :
    (Except.error e >>= f : Except String β) = Except.error e := rfl

theorem except_pure {α : Type} (a : α) :
    (pure a : Except String α) = Except.ok a := rfl

/-! ## C2 -/

/-- The integer encoding of `Math.round` used by `jsRoundMean` is exactly
the floor of `sum/len + 1/2` over the rationals. -/
theorem jsRoundMean_eq_floor (s : Int) (n : Nat) (h : 0 < n) :
    jsRoundMean s n = ⌊(s : ℚ) / (n : ℚ) + 1 / 2⌋ := by
  have hn : (n : ℚ) ≠ 0 := by
    exact_mod_cast Nat.pos_iff_ne_zero.mp h
  have key : (s : ℚ) / (n : ℚ) + 1 / 2 = ((2 * s + (n : ℤ) : ℤ) : ℚ) / ((2 * n : ℕ) : ℚ) := by
    push_cast
    field_simp
    ring
  rw [key, Rat.floor_intCast_div_natCast]
  unfold jsRoundMean
  push_cast
  rfl

/-- C2: when all eight criterion calls resolve, `validateProject` reports
`overallScore` equal to the rounded arithmetic mean (`Math.round`, i.e. the
floor of the mean plus one half) of the eight self-reported scores
(`result.score || 0`), and `improvementNeeded` holds exactly when that score
is below 75. -/
theorem c2_overall_score
    (critO : String → Except String CriterionResult)
    (suggO reportO : Except String String) (rs : String → CriterionResult)
    (hok : ∀ c ∈ validationCriteria, critO c = .ok (rs c))
    (v : ValidationResults)
    (hv : validateProject critO suggO reportO = .ok v) :
    v.overallScore =
      ⌊(((validationCriteria.map fun c => ((rs c).score).getD 0).sum : ℚ)) / 8 + 1 / 2⌋ ∧
    (v.improvementNeeded = true ↔ v.overallScore < 75) := by
  have hrun := runCriteria_ok critO rs validationCriteria hok
  have hcomp : ((fun r : String × CriterionResult => (r.2.score).getD 0) ∘
      fun c => (c, rs c)) = fun c => ((rs c).score).getD 0 := rfl
  have hcalc : calculateOverallScore (List.map (fun c => (c, rs c)) validationCriteria) =
      jsRoundMean ((validationCriteria.map fun c => ((rs c).score).getD 0).sum) 8 := by
    unfold calculateOverallScore
    simp only [List.map_map, hcomp, List.length_map]
    rw [if_pos (by decide)]
    rfl
  have hfloor : calculateOverallScore (List.map (fun c => (c, rs c)) validationCriteria) =
      ⌊(((validationCriteria.map fun c => ((rs c).score).getD 0).sum : ℚ)) / 8 + 1 / 2⌋ := by
    rw [hcalc, jsRoundMean_eq_floor _ 8 (by norm_num)]
    norm_num
  unfold validateProject at hv
  rw [hrun] at hv
  simp only [except_bind_ok] at hv
  by_cases himp : calculateOverallScore (List.map (fun c => (c, rs c)) validationCriteria) < 75
  · rw [if_pos (decide_eq_true himp)] at hv
    cases hsugg : suggO with
    | error es =>
      rw [hsugg] at hv
      simp [except_bind_error] at hv
    | ok s =>
      rw [hsugg] at hv
      simp only [except_pure, except_bind_ok] at hv
      cases hrep : reportO with
      | error er =>
        rw [hrep] at hv
        simp [except_bind_error] at hv
      | ok rep =>
        rw [hrep] at hv
        simp only [except_pure, except_bind_ok] at hv
        have hv' := (Except.ok.injEq _ _).mp hv.symm
        subst hv'
        refine ⟨hfloor, ?_⟩
        simp [decide_eq_true_eq]
  · rw [if_neg (by simpa using himp)] at hv
    simp only [except_pure, except_bind_ok] at hv
    cases hrep : reportO with
    | error er =>
      rw [hrep] at hv
      simp [except_bind_error] at hv
    | ok rep =>
      rw [hrep] at hv
      simp only [except_pure, except_bind_ok] at hv
      have hv' := (Except.ok.injEq _ _).mp hv.symm
      subst hv'
      refine ⟨hfloor, ?_⟩
      simp [decide_eq_true_eq]

/-- Witness for C2: the spec's two examples — eight scores of 80 give
`overallScore` 80 with no improvement needed, eight scores of 0 give 0 with
improvement needed. -/
theorem c2_overall_score_witness :
    (∃ v, validateProject critO80 (.ok "") (.ok "") = .ok v ∧
      v.overallScore = 80 ∧ v.improvementNeeded = false ∧
      (v.improvementNeeded = true ↔ v.overallScore < 75)) ∧
    (∃ v, validateProject critO0 (.ok "sugg") (.ok "") = .ok v ∧
      v.overallScore = 0 ∧ v.improvementNeeded = true ∧
      (v.improvementNeeded = true ↔ v.overallScore < 75)) := by
  constructor
  · have hv : validateProject critO80 (.ok "") (.ok "") = .ok
        { criteria := validationCriteria,
          results := validationCriteria.map fun c => (c, { score := some 80, payload := "" }),
          overallScore := 80, improvementNeeded := false,
          suggestions := none, report := "" } := by decide
    have h := c2_overall_score critO80 (.ok "") (.ok "")
      (fun _ => { score := some 80, payload := "" }) (fun _ _ => rfl) _ hv
    exact ⟨_, hv, rfl, rfl, h.2⟩
  · have hv : validateProject critO0 (.ok "sugg") (.ok "") = .ok
        { criteria := validationCriteria,
          results := validationCriteria.map fun c => (c, { score := some 0, payload := "" }),
          overallScore := 0, improvementNeeded := true,
          suggestions := some "sugg", report := "" } := by decide
    have h := c2_overall_score critO0 (.ok "sugg") (.ok "")
      (fun _ => { score := some 0, payload := "" }) (fun _ _ => rfl) _ hv
    exact ⟨_, hv, rfl, rfl, h.2⟩

/-! ## C6 -/

/-- C6: neither `validateProject` nor `conductResearch` catches per-item
failures — a rejected completion call for any single criterion (resp. topic)
rejects the whole agent invocation, so no partial per-item mapping is
returned. -/
theorem c6_no_per_item_catch
    (critO : String → Except String CriterionResult)
    (suggO reportO : Except String String)
    (c e1 : String) (hc : c ∈ validationCriteria) (hcrit : critO c = .error e1)
    (topicO : String → Except String TopicResult) (synthO : Except String String)
    (topics : List String) (t e2 : String)
    (ht : t ∈ topics) (htop : topicO t = .error e2) :
    (∃ e, validateProject critO suggO reportO = .error e) ∧
    (∃ e, conductResearch topicO synthO topics = .error e) := by
  constructor
  · obtain ⟨e', he'⟩ := runCriteria_error critO c e1 validationCriteria hc hcrit
    exact ⟨e', by unfold validateProject; rw [he']; rfl⟩
  · obtain ⟨e', he'⟩ := runTopics_error topicO t e2 topics ht htop
    exact ⟨e', by unfold conductResearch; rw [he']; rfl⟩

/-- Witness for C6: a rejecting `risk_assessment` criterion aborts
validation, and a rejecting `scalability` topic aborts research. -/
theorem c6_no_per_item_catch_witness :
    (∃ e, validateProject critOfail (.ok "") (.ok "") = .error e) ∧
    (∃ e, conductResearch topicOfail (.ok "")
      ["technology", "scalability"] = .error e) :=
  c6_no_per_item_catch critOfail (.ok "") (.ok "")
    "risk_assessment" "criterion boom" (by decide) (by decide)
    topicOfail (.ok "") ["technology", "scalability"]
    "scalability" "topic boom" (by decide) (by decide)

/-! ## C9 -/

/-- C9: `calculateConfidenceScore` equals `min(100, 20·r + 25·v + 15·e)`
where `r`, `v`, `e` count the log lines containing the substrings
`research`, `validation` and `enhancement`; it never exceeds 100, and two
logs with the same three counts get the same score. -/
theorem c9_confidence_from_counts (log log' : List String)
    (hres : (log.countP fun l => strIncludes l ("research")) =
      (log'.countP fun l => strIncludes l ("research")))
    (hval : (log.countP fun l => strIncludes l ("validation")) =
      (log'.countP fun l => strIncludes l ("validation")))
    (henh : (log.countP fun l => strIncludes l ("enhancement")) =
      (log'.countP fun l => strIncludes l ("enhancement"))) :
    calculateConfidenceScore log =
      min 100 (20 * (log.countP fun l => strIncludes l ("research")) +
        25 * (log.countP fun l => strIncludes l ("validation")) +
        15 * (log.countP fun l => strIncludes l ("enhancement"))) ∧
    calculateConfidenceScore log ≤ 100 ∧
    calculateConfidenceScore log = calculateConfidenceScore log' := by
  simp only [calculateConfidenceScore, List.countP_eq_length_filter] at hres hval henh ⊢
  omega

/-- Witness for C9: two different logs with one `research` and one
`validation` line each score 45, below the 100 cap. -/
theorem c9_confidence_from_counts_witness :
    calculateConfidenceScore ["agent research step", "validation pass"] ≤ 100 ∧
    calculateConfidenceScore ["agent research step", "validation pass"] =
      calculateConfidenceScore ["research!", "one validation line"] :=
  ⟨(c9_confidence_from_counts ["agent research step", "validation pass"]
      ["research!", "one validation line"] (by decide) (by decide) (by decide)).2.1,
   (c9_confidence_from_counts ["agent research step", "validation pass"]
      ["research!", "one validation line"] (by decide) (by decide) (by decide)).2.2⟩

/-! ## C3 -/

/-- C3: with no `SERPER_API_KEY`, `search` resolves for every query — even
when both underlying calls would reject — with empty `results`, no `error`,
and the fixed degraded analysis whose `summary` contains the configuration
hint `Configure SERPER_API_KEY`; the degraded record is also cached. -/
theorem c3_degraded_mode
    (fetchO : String → Except String SerperResponse)
    (llmO : String → Except String SearchAnalysis)
    (now q opts : String) (cache : SearchCache)
    (hmiss : mapGet cache (cacheKey q opts) = none) :
    search { apiKey := none, fetchO := fetchO, llmO := llmO, now := now }
        q opts cache =
      (disabledRecord q, mapSet cache (cacheKey q opts) (disabledRecord q), 1) ∧
    (disabledRecord q).results = [] ∧
    (disabledRecord q).analysis = some disabledAnalysis ∧
    (disabledRecord q).error = none ∧
    strIncludes disabledAnalysis.summary ("Configure SERPER_API_KEY") = true := by
  refine ⟨?_, rfl, rfl, rfl, by decide⟩
  unfold search
  rw [hmiss]
  rfl

/-- Witness for C3: a fresh (empty-cache) agent with no key resolves
`search "x"` in degraded mode. -/
theorem c3_degraded_mode_witness :
    search noKeyEnv "x" emptyOptions [] =
      (disabledRecord "x",
       mapSet [] (cacheKey "x" emptyOptions) (disabledRecord "x"), 1) ∧
    (disabledRecord "x").results = [] ∧
    (disabledRecord "x").analysis = some disabledAnalysis ∧
    (disabledRecord "x").error = none ∧
    strIncludes disabledAnalysis.summary ("Configure SERPER_API_KEY") = true :=
  c3_degraded_mode (fun _ => .error "fetch") (fun _ => .error "llm")
    "t0" "x" emptyOptions [] rfl

/-! ## C4 -/

/-- The cache key determines the query (for a fixed options serialization). -/
theorem cacheKey_inj (a b opts : String) (h : cacheKey a opts = cacheKey b opts) :
    a = b := by
  unfold cacheKey at h
  have h1 : (a ++ "-").data ++ opts.data = (b ++ "-").data ++ opts.data := by
    have hd := congrArg String.data h
    simpa [String.data_append] using hd
  have h3 : a.data ++ ("-" : String).data = b.data ++ ("-" : String).data := by
    have h2 := List.append_cancel_right h1
    simpa [String.data_append] using h2
  have h4 : a.data = b.data := List.append_cancel_right h3
  cases a
  cases b
  exact congrArg String.mk h4

/-- Under a coherent cache, one `search` with default options resolves with
exactly the underlying outcome's record (cached or fresh for a success, the
caught error record for a rejection) and keeps the cache coherent. -/
theorem search_coherent (env : SearchEnv) (q : String) (cache : SearchCache)
    (hcoh : coherentCache env cache) :
    (search env q emptyOptions cache).1 =
      (match underlyingSearch env q with
       | .ok r => r
       | .error e => errRecord q e) ∧
    coherentCache env (search env q emptyOptions cache).2.1 := by
  unfold search
  cases hget : mapGet cache (cacheKey q emptyOptions) with
  | some v =>
    obtain ⟨q0, hk, hu⟩ := hcoh _ _ hget
    have hq : q = q0 := cacheKey_inj q q0 emptyOptions hk
    subst hq
    rw [hu]
    exact ⟨rfl, hcoh⟩
  | none =>
    cases hu : underlyingSearch env q with
    | ok r =>
      refine ⟨rfl, ?_⟩
      intro k v hkv
      by_cases hk : k = cacheKey q emptyOptions
      · subst hk
        rw [mapGet_mapSet_self] at hkv
        exact ⟨q, rfl, by rw [hu, (Option.some.injEq _ _).mp hkv]⟩
      · rw [mapGet_mapSet_ne _ _ _ _ hk] at hkv
        exact hcoh _ _ hkv
    | error e =>
      exact ⟨rfl, hcoh⟩

/-- `searchMany` over any queries and coherent cache produces, per query in
input order, the underlying outcome's record — the caught error record for a
rejected query — and keeps the cache coherent. -/
theorem searchMany_records (env : SearchEnv) (queries : List String) :
    ∀ cache, coherentCache env cache →
    (searchMany env queries cache).1 =
      queries.map (fun q =>
        match underlyingSearch env q with
        | .ok r => r
        | .error e => errRecord q e) ∧
    coherentCache env (searchMany env queries cache).2 := by
  induction queries with
  | nil =>
    intro cache h
    exact ⟨rfl, h⟩
  | cons q qs ih =>
    intro cache hcoh
    obtain ⟨h1, hcoh1⟩ := search_coherent env q cache hcoh
    rcases hs : search env q emptyOptions cache with ⟨r, c1, n⟩
    rw [hs] at h1 hcoh1
    simp only at h1 hcoh1
    obtain ⟨h2, hcoh2⟩ := ih c1 hcoh1
    rcases hm : searchMany env qs c1 with ⟨rs, c2⟩
    rw [hm] at h2 hcoh2
    simp only at h2 hcoh2
    constructor
    · simp only [searchMany, hs, hm, List.map_cons]
      rw [h1, h2]
    · simp only [searchMany, hs, hm]
      exact hcoh2

/-- A fresh batch resolves with one entry per query in input order: the
underlying record for a resolving query, the caught error record for a
rejecting one. -/
theorem searchMultipleQueries_records (env : SearchEnv) (s : String)
    (queries : List String) :
    ∃ c', searchMultipleQueries env (.ok s) queries [] =
      (.ok { individualResults := queries.map (fun q =>
          match underlyingSearch env q with
          | .ok r => r
          | .error e => errRecord q e), synthesis := s }, c') := by
  obtain ⟨h1, _⟩ := searchMany_records env queries []
    (fun k v h => by simp [mapGet] at h)
  rcases hm : searchMany env queries [] with ⟨rs, c2⟩
  rw [hm] at h1
  simp only at h1
  refine ⟨c2, ?_⟩
  simp only [searchMultipleQueries, hm]
  rw [h1]

/-- C4: if exactly one of three batched queries' underlying search rejects —
whichever of the three positions it occupies — `searchMultipleQueries`
still resolves with exactly three entries in `individualResults`, in input
order: the failing query's entry carries the error with empty `results` and
null `analysis`, and the other two entries are the normal per-query
records. -/
theorem c4_batch_isolation (env : SearchEnv) (q1 q2 q3 e s : String) :
    (∀ r2 r3, underlyingSearch env q1 = .error e →
      underlyingSearch env q2 = .ok r2 → underlyingSearch env q3 = .ok r3 →
      ∃ c', searchMultipleQueries env (.ok s) [q1, q2, q3] [] =
        (.ok { individualResults := [errRecord q1 e, r2, r3],
               synthesis := s }, c')) ∧
    (∀ r1 r3, underlyingSearch env q1 = .ok r1 →
      underlyingSearch env q2 = .error e → underlyingSearch env q3 = .ok r3 →
      ∃ c', searchMultipleQueries env (.ok s) [q1, q2, q3] [] =
        (.ok { individualResults := [r1, errRecord q2 e, r3],
               synthesis := s }, c')) ∧
    (∀ r1 r2, underlyingSearch env q1 = .ok r1 →
      underlyingSearch env q2 = .ok r2 → underlyingSearch env q3 = .error e →
      ∃ c', searchMultipleQueries env (.ok s) [q1, q2, q3] [] =
        (.ok { individualResults := [r1, r2, errRecord q3 e],
               synthesis := s }, c')) := by
  refine ⟨fun r2 r3 hu1 hu2 hu3 => ?_, fun r1 r3 hu1 hu2 hu3 => ?_,
    fun r1 r2 hu1 hu2 hu3 => ?_⟩ <;>
  · obtain ⟨c', hc'⟩ := searchMultipleQueries_records env s [q1, q2, q3]
    refine ⟨c', ?_⟩
    rw [hc']
    simp only [List.map_cons, List.map_nil, hu1, hu2, hu3]

/-- Witness for C4: under `batchEnv` only query `b`'s provider fetch
rejects; batching it first, second or third among `a` and `c`, the batch
still resolves with three ordered entries, `b`'s carrying the error. -/
theorem c4_batch_isolation_witness :
    (∃ c', searchMultipleQueries batchEnv (.ok "synth") ["b", "a", "c"] [] =
      (.ok { individualResults := [errRecord "b" "network down", recAEx, recCEx],
             synthesis := "synth" }, c')) ∧
    (∃ c', searchMultipleQueries batchEnv (.ok "synth") ["a", "b", "c"] [] =
      (.ok { individualResults := [recAEx, errRecord "b" "network down", recCEx],
             synthesis := "synth" }, c')) ∧
    (∃ c', searchMultipleQueries batchEnv (.ok "synth") ["a", "c", "b"] [] =
      (.ok { individualResults := [recAEx, recCEx, errRecord "b" "network down"],
             synthesis := "synth" }, c')) := by
  refine ⟨?_, ?_, ?_⟩
  · exact (c4_batch_isolation batchEnv "b" "a" "c" "network down" "synth").1
      recAEx recCEx (by decide) (by decide) (by decide)
  · exact (c4_batch_isolation batchEnv "a" "b" "c" "network down" "synth").2.1
      recAEx recCEx (by decide) (by decide) (by decide)
  · exact (c4_batch_isolation batchEnv "a" "c" "b" "network down" "synth").2.2
      recAEx recCEx (by decide) (by decide) (by decide)


/-! ## C7 -/

/-- Counterexample to C7 as stated: a first `search` call whose underlying
fetch rejects completes (it resolves with the caught error record), yet it
caches nothing, and a second call with the identical query and options
issues the underlying calls again (invocation count 1, where the claim
demands 0 further provider calls after any completed call). -/
theorem c7_cache_counterexample :
    (search failEnv "x" emptyOptions []).1 = errRecord "x" "network down" ∧
    (search failEnv "x" emptyOptions []).2.1 = [] ∧
    (search failEnv "x" emptyOptions
      ((search failEnv "x" emptyOptions []).2.1)).2.2 = 1 := by decide

/-- C7 (amended): once a `search` call has completed without entering the
catch path (its record's `error` field unset), every subsequent call with
the identical query and options — under any provider/completion environment
— returns exactly that record from the cache with zero further underlying
calls; and a `search` call never removes or overwrites existing cache
entries (only `clearCache` empties the cache). -/
theorem c7_cache_success (env env' : SearchEnv) (q opts : String)
    (cache : SearchCache) (r : SearchRecord) (c' : SearchCache) (n : Nat)
    (h : search env q opts cache = (r, c', n)) (hr : r.error = none) :
    search env' q opts c' = (r, c', 0) ∧
    (∀ k v, mapGet cache k = some v → mapGet c' k = some v) := by
  unfold search at h
  cases hget : mapGet cache (cacheKey q opts) with
  | some r0 =>
    rw [hget] at h
    injection h with h1 h23
    injection h23 with h2 h3
    subst h1
    subst h2
    constructor
    · unfold search
      rw [hget]
    · intro k v hk
      exact hk
  | none =>
    rw [hget] at h
    cases hu : underlyingSearch env q with
    | ok r0 =>
      rw [hu] at h
      injection h with h1 h23
      injection h23 with h2 h3
      subst h1
      subst h2
      constructor
      · unfold search
        rw [mapGet_mapSet_self]
      · intro k v hk
        by_cases hkk : k = cacheKey q opts
        · rw [hkk, hget] at hk
          exact Option.noConfusion hk
        · rw [mapGet_mapSet_ne _ _ _ _ hkk]
          exact hk
    | error e =>
      rw [hu] at h
      injection h with h1 h23
      subst h1
      simp [errRecord] at hr

/-- Witness for the amended C7: after a successful `search "a"` under
`batchEnv`, the identical call — even in an environment where every provider
fetch would reject — returns the cached record with no underlying call. -/
theorem c7_cache_success_witness :
    search failEnv "a" emptyOptions [(cacheKey "a" emptyOptions, recAEx)] =
      (recAEx, [(cacheKey "a" emptyOptions, recAEx)], 0) :=
  (c7_cache_success batchEnv failEnv "a" emptyOptions [] recAEx
    [(cacheKey "a" emptyOptions, recAEx)] 1 (by decide) rfl).1

/-! ## C8 -/

/-- One pattern-strength update whose change is not `decreased` keeps every
entry's `occurrences` and never lowers its `confidence` (given the latter is
non-negative). -/
theorem applyStrengthUpdate_mono (m : List (String × PatternEntry))
    (u : StrengthUpdate) (now : String) (hnd : u.strength_change ≠ "decreased")
    (k : String) (ex : PatternEntry) (hex : mapGet m k = some ex) :
    ∃ ex2, mapGet (applyStrengthUpdate m u now) k = some ex2 ∧
      ex2.occurrences = ex.occurrences ∧
      (0 ≤ ex.confidence.getD 1 → ex.confidence.getD 1 ≤ ex2.confidence.getD 1) := by
  cases hg : mapGet m (generatePatternKey u.pattern) with
  | none =>
    simp only [applyStrengthUpdate, hg]
    exact ⟨ex, hex, rfl, fun _ => le_refl _⟩
  | some exu =>
    by_cases hk : k = generatePatternKey u.pattern
    · subst hk
      have hxe : exu = ex := by
        rw [hex] at hg
        exact ((Option.some.injEq _ _).mp hg).symm
      subst hxe
      by_cases hinc : u.strength_change = "increased"
      · simp only [applyStrengthUpdate, hg, hinc, if_pos, if_true,
          eq_self_iff_true]
        refine ⟨_, mapGet_mapSet_self _ _ _, rfl, ?_⟩
        intro h0
        simp only [Option.getD_some]
        linarith
      · simp only [applyStrengthUpdate, hg, if_neg hinc, if_neg hnd]
        exact ⟨_, mapGet_mapSet_self _ _ _, rfl, fun _ => le_refl _⟩
    · simp only [applyStrengthUpdate, hg]
      rw [mapGet_mapSet_ne _ _ _ _ hk]
      exact ⟨ex, hex, rfl, fun _ => le_refl _⟩

/-- Over a whole update list with no `decreased` entry,
`updatePatternStrengths` keeps every present entry present, with its
`occurrences` unchanged and its `confidence` not lowered. -/
theorem updatePatternStrengths_mono (updates : List StrengthUpdate) :
    ∀ (m : List (String × PatternEntry)) (now : String),
    (∀ u ∈ updates, u.strength_change ≠ "decreased") →
    ∀ k ex, mapGet m k = some ex →
    ∃ ex2, mapGet (updatePatternStrengths m updates now) k = some ex2 ∧
      ex2.occurrences = ex.occurrences ∧
      (0 ≤ ex.confidence.getD 1 → ex.confidence.getD 1 ≤ ex2.confidence.getD 1) := by
  induction updates with
  | nil =>
    intro m now _ k ex hex
    exact ⟨ex, hex, rfl, fun _ => le_refl _⟩
  | cons u us ih =>
    intro m now hnd k ex hex
    obtain ⟨ex1, h1, hocc1, hc1⟩ :=
      applyStrengthUpdate_mono m u now (hnd u (List.mem_cons_self u us)) k ex hex
    obtain ⟨ex2, h2, hocc2, hc2⟩ :=
      ih (applyStrengthUpdate m u now) now
        (fun v hv => hnd v (List.mem_cons_of_mem u hv)) k ex1 h1
    refine ⟨ex2, h2, hocc2.trans hocc1, ?_⟩
    intro h0
    exact le_trans (hc1 h0) (hc2 (le_trans h0 (hc1 h0)))

/-- The `decreased` branch — the explicit decay path — strictly lowers the
updated pattern's (positive) confidence. -/
theorem applyStrengthUpdate_decreases (m : List (String × PatternEntry))
    (u : StrengthUpdate) (now : String) (hu : u.strength_change = "decreased")
    (ex : PatternEntry) (hex : mapGet m (generatePatternKey u.pattern) = some ex)
    (hpos : 0 < ex.confidence.getD 1) :
    ∃ ex2, mapGet (applyStrengthUpdate m u now) (generatePatternKey u.pattern) =
      some ex2 ∧ ex2.confidence.getD 1 < ex.confidence.getD 1 := by
  simp only [applyStrengthUpdate, hex, hu, eq_self_iff_true, if_true]
  rw [if_neg (show ¬(("decreased" : String) = "increased") from by decide)]
  refine ⟨_, mapGet_mapSet_self _ _ _, ?_⟩
  simp only [Option.getD_some]
  linarith

/-- Storing the same pattern twice increments its `occurrences` counter by
one each time and the second store adds no entry to the map. -/
theorem storePattern_twice (m : List (String × PatternEntry)) (ty p n1 n2 : String) :
    ∃ n,
      (mapGet (storePattern m ty p n1) (generatePatternKey p)).map
        PatternEntry.occurrences = some (n + 1) ∧
      (mapGet (storePattern (storePattern m ty p n1) ty p n2)
        (generatePatternKey p)).map PatternEntry.occurrences = some (n + 2) ∧
      (storePattern (storePattern m ty p n1) ty p n2).length =
        (storePattern m ty p n1).length := by
  obtain ⟨e1, he1⟩ : ∃ e1, mapGet (storePattern m ty p n1) (generatePatternKey p) =
      some e1 ∧ e1.occurrences =
      ((mapGet m (generatePatternKey p)).map PatternEntry.occurrences).getD 0 + 1 := by
    cases hg : mapGet m (generatePatternKey p) with
    | none =>
      refine ⟨{ pattern := p, type := ty, occurrences := 0 + 1, projects := [],
                lastSeen := some n1, confidence := none, evidence := [],
                lastValidated := none }, ?_, ?_⟩
      · simp only [storePattern, hg, Option.getD_none]
        exact mapGet_mapSet_self _ _ _
      · simp [hg]
    | some e0 =>
      refine ⟨{ e0 with occurrences := e0.occurrences + 1, lastSeen := some n1 },
          ?_, ?_⟩
      · simp only [storePattern, hg, Option.getD_some]
        exact mapGet_mapSet_self _ _ _
      · simp [hg]
  refine ⟨((mapGet m (generatePatternKey p)).map PatternEntry.occurrences).getD 0,
    ?_, ?_, ?_⟩
  · rw [he1.1, Option.map_some', he1.2]
  · have h2 : mapGet (storePattern (storePattern m ty p n1) ty p n2)
        (generatePatternKey p) = some
        { ((mapGet (storePattern m ty p n1) (generatePatternKey p)).getD
            { pattern := p, type := ty, occurrences := 0, projects := [],
              lastSeen := none, confidence := none, evidence := [],
              lastValidated := none }) with
          occurrences := ((mapGet (storePattern m ty p n1) (generatePatternKey p)).getD
            { pattern := p, type := ty, occurrences := 0, projects := [],
              lastSeen := none, confidence := none, evidence := [],
              lastValidated := none }).occurrences + 1,
          lastSeen := some n2 } := by
      conv_lhs => rw [storePattern]
      exact mapGet_mapSet_self _ _ _
    rw [h2, he1.1]
    simp [he1.2]
  · conv_lhs => rw [storePattern]
    rw [length_mapSet]
    rw [he1.1]
    rfl

/-- Storing the same insight twice increments its `confidence` counter by
one each time and the second store adds no entry. -/
theorem storeInsight_twice (m : List (String × InsightEntry)) (cat i n1 n2 : String) :
    ∃ n,
      (mapGet (storeInsight m cat i n1) (generateInsightKey i)).map
        InsightEntry.confidence = some (n + 1) ∧
      (mapGet (storeInsight (storeInsight m cat i n1) cat i n2)
        (generateInsightKey i)).map InsightEntry.confidence = some (n + 2) ∧
      (storeInsight (storeInsight m cat i n1) cat i n2).length =
        (storeInsight m cat i n1).length := by
  obtain ⟨e1, he1⟩ : ∃ e1, mapGet (storeInsight m cat i n1) (generateInsightKey i) =
      some e1 ∧ e1.confidence =
      ((mapGet m (generateInsightKey i)).map InsightEntry.confidence).getD 1 + 1 := by
    cases hg : mapGet m (generateInsightKey i) with
    | none =>
      refine ⟨{ insight := i, category := cat, confidence := 1 + 1, sources := [],
                lastUpdated := some n1 }, ?_, ?_⟩
      · simp only [storeInsight, hg, Option.getD_none]
        exact mapGet_mapSet_self _ _ _
      · simp [hg]
    | some e0 =>
      refine ⟨{ e0 with confidence := e0.confidence + 1, lastUpdated := some n1 },
          ?_, ?_⟩
      · simp only [storeInsight, hg, Option.getD_some]
        exact mapGet_mapSet_self _ _ _
      · simp [hg]
  refine ⟨((mapGet m (generateInsightKey i)).map InsightEntry.confidence).getD 1,
    ?_, ?_, ?_⟩
  · rw [he1.1, Option.map_some', he1.2]
  · have h2 : mapGet (storeInsight (storeInsight m cat i n1) cat i n2)
        (generateInsightKey i) = some
        { ((mapGet (storeInsight m cat i n1) (generateInsightKey i)).getD
            { insight := i, category := cat, confidence := 1, sources := [],
              lastUpdated := none }) with
          confidence := ((mapGet (storeInsight m cat i n1) (generateInsightKey i)).getD
            { insight := i, category := cat, confidence := 1, sources := [],
              lastUpdated := none }).confidence + 1,
          lastUpdated := some n2 } := by
      conv_lhs => rw [storeInsight]
      exact mapGet_mapSet_self _ _ _
    rw [h2, he1.1]
    simp [he1.2]
  · conv_lhs => rw [storeInsight]
    rw [length_mapSet]
    rw [he1.1]
    rfl

/-- Storing the same best practice twice increments its `effectiveness`
counter by one each time and the second store adds no entry. -/
theorem storeBestPractice_twice (m : List (String × PracticeEntry)) (pr n1 n2 : String) :
    ∃ n,
      (mapGet (storeBestPractice m pr n1) (generateBestPracticeKey pr)).map
        PracticeEntry.effectiveness = some (n + 1) ∧
      (mapGet (storeBestPractice (storeBestPractice m pr n1) pr n2)
        (generateBestPracticeKey pr)).map PracticeEntry.effectiveness = some (n + 2) ∧
      (storeBestPractice (storeBestPractice m pr n1) pr n2).length =
        (storeBestPractice m pr n1).length := by
  obtain ⟨e1, he1⟩ : ∃ e1, mapGet (storeBestPractice m pr n1) (generateBestPracticeKey pr) =
      some e1 ∧ e1.effectiveness =
      ((mapGet m (generateBestPracticeKey pr)).map PracticeEntry.effectiveness).getD 1 + 1 := by
    cases hg : mapGet m (generateBestPracticeKey pr) with
    | none =>
      refine ⟨{ practice := pr, effectiveness := 1 + 1, contexts := [],
                lastValidated := some n1 }, ?_, ?_⟩
      · simp only [storeBestPractice, hg, Option.getD_none]
        exact mapGet_mapSet_self _ _ _
      · simp [hg]
    | some e0 =>
      refine ⟨{ e0 with effectiveness := e0.effectiveness + 1, lastValidated := some n1 }, ?_, ?_⟩
      · simp only [storeBestPractice, hg, Option.getD_some]
        exact mapGet_mapSet_self _ _ _
      · simp [hg]
  refine ⟨((mapGet m (generateBestPracticeKey pr)).map PracticeEntry.effectiveness).getD 1,
    ?_, ?_, ?_⟩
  · rw [he1.1, Option.map_some', he1.2]
  · have h2 : mapGet (storeBestPractice (storeBestPractice m pr n1) pr n2)
        (generateBestPracticeKey pr) = some
        { ((mapGet (storeBestPractice m pr n1) (generateBestPracticeKey pr)).getD
            { practice := pr, effectiveness := 1, contexts := [],
              lastValidated := none }) with
          effectiveness := ((mapGet (storeBestPractice m pr n1) (generateBestPracticeKey pr)).getD
            { practice := pr, effectiveness := 1, contexts := [],
              lastValidated := none }).effectiveness + 1,
          lastValidated := some n2 } := by
      conv_lhs => rw [storeBestPractice]
      exact mapGet_mapSet_self _ _ _
    rw [h2, he1.1]
    simp [he1.2]
  · conv_lhs => rw [storeBestPractice]
    rw [length_mapSet]
    rw [he1.1]
    rfl

/-- Storing the same technology learning twice increments its `reliability`
counter by one each time and the second store adds no entry. -/
theorem storeTechnologyLearning_twice (m : List (String × TechEntry)) (le n1 n2 : String) :
    ∃ n,
      (mapGet (storeTechnologyLearning m le n1) (generateTechnologyKey le)).map
        TechEntry.reliability = some (n + 1) ∧
      (mapGet (storeTechnologyLearning (storeTechnologyLearning m le n1) le n2)
        (generateTechnologyKey le)).map TechEntry.reliability = some (n + 2) ∧
      (storeTechnologyLearning (storeTechnologyLearning m le n1) le n2).length =
        (storeTechnologyLearning m le n1).length := by
  obtain ⟨e1, he1⟩ : ∃ e1, mapGet (storeTechnologyLearning m le n1) (generateTechnologyKey le) =
      some e1 ∧ e1.reliability =
      ((mapGet m (generateTechnologyKey le)).map TechEntry.reliability).getD 1 + 1 := by
    cases hg : mapGet m (generateTechnologyKey le) with
    | none =>
      refine ⟨{ learning := le, reliability := 1 + 1, contexts := [],
                lastUpdated := some n1 }, ?_, ?_⟩
      · simp only [storeTechnologyLearning, hg, Option.getD_none]
        exact mapGet_mapSet_self _ _ _
      · simp [hg]
    | some e0 =>
      refine ⟨{ e0 with reliability := e0.reliability + 1, lastUpdated := some n1 }, ?_, ?_⟩
      · simp only [storeTechnologyLearning, hg, Option.getD_some]
        exact mapGet_mapSet_self _ _ _
      · simp [hg]
  refine ⟨((mapGet m (generateTechnologyKey le)).map TechEntry.reliability).getD 1,
    ?_, ?_, ?_⟩
  · rw [he1.1, Option.map_some', he1.2]
  · have h2 : mapGet (storeTechnologyLearning (storeTechnologyLearning m le n1) le n2)
        (generateTechnologyKey le) = some
        { ((mapGet (storeTechnologyLearning m le n1) (generateTechnologyKey le)).getD
            { learning := le, reliability := 1, contexts := [],
              lastUpdated := none }) with
          reliability := ((mapGet (storeTechnologyLearning m le n1) (generateTechnologyKey le)).getD
            { learning := le, reliability := 1, contexts := [],
              lastUpdated := none }).reliability + 1,
          lastUpdated := some n2 } := by
      conv_lhs => rw [storeTechnologyLearning]
      exact mapGet_mapSet_self _ _ _
    rw [h2, he1.1]
    simp [he1.2]
  · conv_lhs => rw [storeTechnologyLearning]
    rw [length_mapSet]
    rw [he1.1]
    rfl

set_option maxRecDepth 100000 in
/-- Counterexample to C8 as stated: `importKnowledge` is a KnowledgeBase
operation that is not a `decreased` pattern-strength update, yet importing a
snapshot carrying the same key with a lower counter drops the stored
pattern's strength from 2 to 1. -/
theorem c8_strength_counterexample :
    (mapGet knowledgeTwice.patterns (generatePatternKey "reuse components")).map
      PatternEntry.occurrences = some 2 ∧
    (mapGet (importKnowledge knowledgeTwice (some importedLow) none none none).patterns
      (generatePatternKey "reuse components")).map
      PatternEntry.occurrences = some 1 := by decide

/-- C8 (amended): storing the same item twice through any of the four store
methods strictly increases that entry's counter on each store and the second
store never creates a second entry; among the store/update operations, only
`updatePatternStrengths` applying a `decreased` update lowers a pattern's
confidence (updates without `decreased` keep `occurrences` and never lower a
non-negative confidence, and the `decreased` branch strictly lowers it);
`importKnowledge` (and `clearKnowledge`) replace the maps wholesale and are
excluded. -/
theorem c8_strength_monotone
    (mp : List (String × PatternEntry)) (mi : List (String × InsightEntry))
    (mb : List (String × PracticeEntry)) (mt : List (String × TechEntry))
    (ty p cat i pr le n1 n2 now : String)
    (updates : List StrengthUpdate)
    (hnd : ∀ u ∈ updates, u.strength_change ≠ "decreased")
    (k : String) (ex : PatternEntry) (hex : mapGet mp k = some ex)
    (u : StrengthUpdate) (hu : u.strength_change = "decreased")
    (exd : PatternEntry)
    (hexd : mapGet mp (generatePatternKey u.pattern) = some exd)
    (hpos : 0 < exd.confidence.getD 1) :
    (∃ n,
      (mapGet (storePattern mp ty p n1) (generatePatternKey p)).map
        PatternEntry.occurrences = some (n + 1) ∧
      (mapGet (storePattern (storePattern mp ty p n1) ty p n2)
        (generatePatternKey p)).map PatternEntry.occurrences = some (n + 2) ∧
      (storePattern (storePattern mp ty p n1) ty p n2).length =
        (storePattern mp ty p n1).length) ∧
    (∃ n,
      (mapGet (storeInsight mi cat i n1) (generateInsightKey i)).map
        InsightEntry.confidence = some (n + 1) ∧
      (mapGet (storeInsight (storeInsight mi cat i n1) cat i n2)
        (generateInsightKey i)).map InsightEntry.confidence = some (n + 2) ∧
      (storeInsight (storeInsight mi cat i n1) cat i n2).length =
        (storeInsight mi cat i n1).length) ∧
    (∃ n,
      (mapGet (storeBestPractice mb pr n1) (generateBestPracticeKey pr)).map
        PracticeEntry.effectiveness = some (n + 1) ∧
      (mapGet (storeBestPractice (storeBestPractice mb pr n1) pr n2)
        (generateBestPracticeKey pr)).map PracticeEntry.effectiveness = some (n + 2) ∧
      (storeBestPractice (storeBestPractice mb pr n1) pr n2).length =
        (storeBestPractice mb pr n1).length) ∧
    (∃ n,
      (mapGet (storeTechnologyLearning mt le n1) (generateTechnologyKey le)).map
        TechEntry.reliability = some (n + 1) ∧
      (mapGet (storeTechnologyLearning (storeTechnologyLearning mt le n1) le n2)
        (generateTechnologyKey le)).map TechEntry.reliability = some (n + 2) ∧
      (storeTechnologyLearning (storeTechnologyLearning mt le n1) le n2).length =
        (storeTechnologyLearning mt le n1).length) ∧
    (∃ ex2, mapGet (updatePatternStrengths mp updates now) k = some ex2 ∧
      ex2.occurrences = ex.occurrences ∧
      (0 ≤ ex.confidence.getD 1 → ex.confidence.getD 1 ≤ ex2.confidence.getD 1)) ∧
    (∃ ex2, mapGet (applyStrengthUpdate mp u now) (generatePatternKey u.pattern) =
      some ex2 ∧ ex2.confidence.getD 1 < exd.confidence.getD 1) :=
  ⟨storePattern_twice mp ty p n1 n2,
   storeInsight_twice mi cat i n1 n2,
   storeBestPractice_twice mb pr n1 n2,
   storeTechnologyLearning_twice mt le n1 n2,
   updatePatternStrengths_mono updates mp now hnd k ex hex,
   applyStrengthUpdate_decreases mp u now hu exd hexd hpos⟩

set_option maxRecDepth 100000 in
/-- Witness for the amended C8: on the concrete twice-stored pattern map,
storing a new pattern twice yields counters 1 then 2, and a `decreased`
update strictly lowers the stored pattern's confidence. -/
theorem c8_strength_monotone_witness :
    (∃ n,
      (mapGet (storePattern patternsTwice "success" "p2" "t1")
        (generatePatternKey "p2")).map PatternEntry.occurrences = some (n + 1) ∧
      (mapGet (storePattern (storePattern patternsTwice "success" "p2" "t1")
        "success" "p2" "t2") (generatePatternKey "p2")).map
        PatternEntry.occurrences = some (n + 2) ∧
      (storePattern (storePattern patternsTwice "success" "p2" "t1")
        "success" "p2" "t2").length =
        (storePattern patternsTwice "success" "p2" "t1").length) ∧
    (∃ ex2, mapGet (applyStrengthUpdate patternsTwice decUpdate "t3")
        (generatePatternKey decUpdate.pattern) = some ex2 ∧
      ex2.confidence.getD 1 < entryTwice.confidence.getD 1) := by
  have h := c8_strength_monotone patternsTwice [] [] []
    "success" "p2" "technical" "i1" "pr1" "le1" "t1" "t2" "t3"
    [incUpdate] (by decide)
    (generatePatternKey "reuse components") entryTwice (by decide)
    decUpdate rfl entryTwice (by decide) (by norm_num [entryTwice])
  exact ⟨h.1, h.2.2.2.2.2⟩
